import Mathlib

/-!
Shallow embedding of `src/main.rs` of the `verkle-witness-analyzer` repository.

The program is a witness-size calculator: per-category byte-cost constants,
a `WitnessComparison` value (scenario label plus the two total witness sizes),
derived metrics (`improvement_factor`, `merkle_fits_in_slot`,
`verkle_fits_in_slot`), and four scenario-generator functions.

Modelling decisions, each tied to the source:
  - Rust `usize`/`u64` values are modelled as `Nat`.  The target is 64-bit, so
    every arithmetic operation of the source that could overflow is modelled
    with an explicit bound check against `2 ^ 64` (`checkedMul`, `checkedAdd`):
    the default (debug) Rust profile panics on overflow, so a generator whose
    arithmetic overflows returns `none` instead of a comparison value.
  - `improvement_factor` is `merkle_size as f64 / verkle_size as f64` in the
    source.  It is modelled as exact rational division.  For the concrete
    values this development evaluates it at, both operands are integers below
    `2 ^ 53` (exactly representable in IEEE double) and the quotient proved is
    exact, so IEEE division returns exactly the modelled rational.  Note that
    Lean's rational division returns 0 on a zero divisor, while IEEE returns
    an infinity or NaN; no theorem below evaluates `improvement_factor` at a
    zero divisor, zero-divisor claims are stated on the fields themselves.
  - Scenario label strings, built with `format!` in the source, are modelled
    with string interpolation.
-/

namespace VerkleWitness

/-- One past the largest value of Rust `usize` on the 64-bit target. -/
def USIZE_BOUND : Nat := 2 ^ 64

/-- Checked `usize` multiplication: the default (debug) Rust profile panics
when `a * b` overflows; the panic is modelled as `none`. -/
def checkedMul (a b : Nat) : Option Nat :=
  if a * b < USIZE_BOUND then some (a * b) else none

/-- Checked `usize` addition: the default (debug) Rust profile panics when
`a + b` overflows; the panic is modelled as `none`. -/
def checkedAdd (a b : Nat) : Option Nat :=
  if a + b < USIZE_BOUND then some (a + b) else none

/-- Bytes per account witness in the Merkle Patricia Trie (source line 2). -/
def MERKLE_ACCOUNT_WITNESS : Nat := 3000

/-- Bytes per account witness in the Verkle tree (source line 3). -/
def VERKLE_ACCOUNT_WITNESS : Nat := 200

/-- Bytes per storage-slot witness in the Merkle Patricia Trie (source line 4). -/
def MERKLE_STORAGE_WITNESS : Nat := 3000

/-- Bytes per storage-slot witness in the Verkle tree (source line 5). -/
def VERKLE_STORAGE_WITNESS : Nat := 200

/-- Bytes per contract-code witness in the Merkle Patricia Trie (source line 6). -/
def MERKLE_CODE_CHUNK : Nat := 24200

/-- Bytes per code chunk in the Verkle tree (source line 7). -/
def VERKLE_CODE_CHUNK : Nat := 200

/-- Slot duration in seconds (source line 9, `u64`). -/
def BLOCK_TIME_SECONDS : Nat := 12

/-- Assumed network bandwidth in megabits per second (source line 10, `u64`). -/
def NETWORK_BANDWIDTH_MBPS : Nat := 10

/-- The comparison entity of the source: scenario label and the two total
witness sizes in bytes (`struct WitnessComparison`). -/
structure WitnessComparison where
  scenario : String
  merkle_size : Nat
  verkle_size : Nat
deriving DecidableEq, Repr

/-- Constructor `WitnessComparison::new`: stores the three arguments verbatim,
with no validation of any kind. -/
def WitnessComparison.new (scenario : String) (merkle_size verkle_size : Nat) :
    WitnessComparison :=
  { scenario := scenario, merkle_size := merkle_size, verkle_size := verkle_size }

/-- The source computes `self.merkle_size as f64 / self.verkle_size as f64`;
modelled as exact rational division (see the file header for why this agrees
with IEEE double division at every point this development evaluates it). -/
def WitnessComparison.improvement_factor (self : WitnessComparison) : ℚ :=
  (self.merkle_size : ℚ) / (self.verkle_size : ℚ)

/-- `merkle_fits_in_slot`: the Merkle witness size is at most the slot byte
budget `(NETWORK_BANDWIDTH_MBPS * 1_000_000 * BLOCK_TIME_SECONDS) / 8`,
computed in `u64` (no overflow: the product is 120 000 000) with truncating
integer division, which on non-negative operands is floor division. -/
def WitnessComparison.merkle_fits_in_slot (self : WitnessComparison) : Bool :=
  let max_bytes : Nat := NETWORK_BANDWIDTH_MBPS * 1000000 * BLOCK_TIME_SECONDS / 8
  self.merkle_size ≤ max_bytes

/-- `verkle_fits_in_slot`: same budget, compared against the Verkle size. -/
def WitnessComparison.verkle_fits_in_slot (self : WitnessComparison) : Bool :=
  let max_bytes : Nat := NETWORK_BANDWIDTH_MBPS * 1000000 * BLOCK_TIME_SECONDS / 8
  self.verkle_size ≤ max_bytes

/-- `fn scenario_single_account`: account witness for each scheme, no
arithmetic beyond the constants themselves. -/
def scenario_single_account : WitnessComparison :=
  WitnessComparison.new "Scenario 1: Single Account Balance Check"
    MERKLE_ACCOUNT_WITNESS VERKLE_ACCOUNT_WITNESS

/-- `fn scenario_storage_access(num_slots: usize)`: per-slot storage witness
cost times the slot count, for each scheme.  Each multiplication is checked
`usize` arithmetic. -/
def scenario_storage_access (num_slots : Nat) : Option WitnessComparison := do
  let m ← checkedMul MERKLE_STORAGE_WITNESS num_slots
  let v ← checkedMul VERKLE_STORAGE_WITNESS num_slots
  pure (WitnessComparison.new
    s!"Scenario 2: Smart Contract Interaction ({num_slots} storage slots)" m v)

/-- `fn scenario_contract_call_with_code`: fixed 2 accounts, 50 storage slots,
1 code chunk; the three products are summed left to right, every operation in
checked `usize` arithmetic. -/
def scenario_contract_call_with_code : Option WitnessComparison := do
  let accounts := 2
  let storage_slots := 50
  let code_chunks := 1
  let ma ← checkedMul MERKLE_ACCOUNT_WITNESS accounts
  let ms ← checkedMul MERKLE_STORAGE_WITNESS storage_slots
  let mc ← checkedMul MERKLE_CODE_CHUNK code_chunks
  let m1 ← checkedAdd ma ms
  let merkle_total ← checkedAdd m1 mc
  let va ← checkedMul VERKLE_ACCOUNT_WITNESS accounts
  let vs ← checkedMul VERKLE_STORAGE_WITNESS storage_slots
  let vc ← checkedMul VERKLE_CODE_CHUNK code_chunks
  let v1 ← checkedAdd va vs
  let verkle_total ← checkedAdd v1 vc
  pure (WitnessComparison.new "Scenario 3: Contract Call with Code Access"
    merkle_total verkle_total)

/-- `fn scenario_full_block`: fixed 5000 state accesses, account witness cost
times the access count for each scheme, in checked `usize` arithmetic. -/
def scenario_full_block : Option WitnessComparison := do
  let state_accesses := 5000
  let m ← checkedMul MERKLE_ACCOUNT_WITNESS state_accesses
  let v ← checkedMul VERKLE_ACCOUNT_WITNESS state_accesses
  pure (WitnessComparison.new
    s!"Scenario 4: Full Block ({state_accesses} state accesses - worst case)" m v)

/-! Helper lemmas shared by the claim theorems. -/

/-- If an optional generator result is `some x`, any `c` it equals `some` of is `x`. -/
theorem some_result_unique {o : Option WitnessComparison} {x c : WitnessComparison}
    (ho : o = some x) (h : o = some c) : c = x :=
  (Option.some.inj (ho.symm.trans h)).symm

/-- The Verkle storage product stays below the `usize` bound whenever the
Merkle one does, since the per-slot cost is smaller. -/
theorem verkle_storage_mul_lt (n : Nat) (h : MERKLE_STORAGE_WITNESS * n < USIZE_BOUND) :
    VERKLE_STORAGE_WITNESS * n < USIZE_BOUND :=
  lt_of_le_of_lt (Nat.mul_le_mul_right n (by decide)) h

/-- Closed form of `scenario_storage_access` when the Merkle multiplication
does not overflow. -/
theorem scenario_storage_access_eq (n : Nat) (h : MERKLE_STORAGE_WITNESS * n < USIZE_BOUND) :
    scenario_storage_access n = some (WitnessComparison.new
      s!"Scenario 2: Smart Contract Interaction ({n} storage slots)"
      (MERKLE_STORAGE_WITNESS * n) (VERKLE_STORAGE_WITNESS * n)) := by
  have hv := verkle_storage_mul_lt n h
  simp [scenario_storage_access, checkedMul, h, hv]

/-- `scenario_storage_access` aborts (overflow panic) when the Merkle
multiplication exceeds the `usize` bound. -/
theorem scenario_storage_access_overflow (n : Nat)
    (h : USIZE_BOUND ≤ MERKLE_STORAGE_WITNESS * n) :
    scenario_storage_access n = none := by
  simp [scenario_storage_access, checkedMul, Nat.not_lt.mpr h]

/-! Claim theorems. -/

/-- C1, counterexample: the constructor performs no check at all — called with
`verkle_size = 0` it succeeds and returns a fully usable value whose fields
read back exactly as passed, so "construction does not produce a usable value"
fails at this concrete input. -/
theorem c1_zero_divisor_constructor_succeeds :
    WitnessComparison.new "zero verkle" 3000 0 =
      { scenario := "zero verkle", merkle_size := 3000, verkle_size := 0 } ∧
    (WitnessComparison.new "zero verkle" 3000 0).merkle_size = 3000 ∧
    (WitnessComparison.new "zero verkle" 3000 0).verkle_size = 0 :=
  ⟨rfl, rfl, rfl⟩

/-- C1, amended: `WitnessComparison::new` never fails and performs no
validation — for every input, including a zero Verkle size, it returns the
value with exactly the given fields; avoiding a zero divisor is left to the
callers, and each of the four scenario entities the program actually builds
has a non-zero `verkle_size`. -/
theorem c1_constructor_no_validation :
    (∀ (s : String) (m v : Nat), WitnessComparison.new s m v = ⟨s, m, v⟩) ∧
    scenario_single_account.verkle_size ≠ 0 ∧
    (∀ c, scenario_storage_access 100 = some c → c.verkle_size ≠ 0) ∧
    (∀ c, scenario_contract_call_with_code = some c → c.verkle_size ≠ 0) ∧
    (∀ c, scenario_full_block = some c → c.verkle_size ≠ 0) := by
  refine ⟨fun s m v => rfl, by decide, ?_, ?_, ?_⟩ <;> intro c h <;>
    rw [some_result_unique rfl h] <;> decide

/-- C1, witness for the amended theorem: instantiated at a concrete
construction and at the storage-scenario entity the program builds. -/
theorem c1_constructor_no_validation_witness :
    WitnessComparison.new "w" 7 0 = ⟨"w", 7, 0⟩ ∧
    (WitnessComparison.new "Scenario 2: Smart Contract Interaction (100 storage slots)"
      300000 20000).verkle_size ≠ 0 :=
  ⟨c1_constructor_no_validation.1 "w" 7 0,
   c1_constructor_no_validation.2.2.1 _ rfl⟩

/-- C2: the full-block generator (fixed 5000 accesses) yields Merkle
15 000 000 and Verkle 1 000 000 bytes, the Merkle total fits the slot budget
exactly, and an entity built the same way from 5001 accesses
(Merkle `3000 * 5001` bytes) no longer fits. -/
theorem c2_full_block_slot_boundary :
    scenario_full_block = some (WitnessComparison.new
      "Scenario 4: Full Block (5000 state accesses - worst case)" 15000000 1000000) ∧
    (WitnessComparison.new
      "Scenario 4: Full Block (5000 state accesses - worst case)"
      15000000 1000000).merkle_fits_in_slot = true ∧
    MERKLE_ACCOUNT_WITNESS * 5001 = 15003000 ∧
    (WitnessComparison.new
      "Scenario 4: Full Block (5001 state accesses - worst case)"
      (MERKLE_ACCOUNT_WITNESS * 5001)
      (VERKLE_ACCOUNT_WITNESS * 5001)).merkle_fits_in_slot = false :=
  ⟨rfl, by decide, by decide, by decide⟩

/-- C3: for every comparison entity, each fits-in-slot check holds exactly
when that scheme's size is at most the truncating-division budget
`NETWORK_BANDWIDTH_MBPS * 1000000 * BLOCK_TIME_SECONDS / 8`, and with the
reference parameters that budget is exactly 15 000 000 bytes. -/
theorem c3_fits_in_slot_budget (c : WitnessComparison) :
    (c.merkle_fits_in_slot = true ↔
      c.merkle_size ≤ NETWORK_BANDWIDTH_MBPS * 1000000 * BLOCK_TIME_SECONDS / 8) ∧
    (c.verkle_fits_in_slot = true ↔
      c.verkle_size ≤ NETWORK_BANDWIDTH_MBPS * 1000000 * BLOCK_TIME_SECONDS / 8) ∧
    NETWORK_BANDWIDTH_MBPS * 1000000 * BLOCK_TIME_SECONDS / 8 = 15000000 := by
  refine ⟨?_, ?_, by decide⟩ <;>
    simp [WitnessComparison.merkle_fits_in_slot, WitnessComparison.verkle_fits_in_slot]

/-- C3, witness: the theorem instantiated at a concrete entity, reading off
the budget identity. -/
theorem c3_fits_in_slot_budget_witness :
    NETWORK_BANDWIDTH_MBPS * 1000000 * BLOCK_TIME_SECONDS / 8 = 15000000 :=
  (c3_fits_in_slot_budget (WitnessComparison.new "w" 0 0)).2.2

/-- C4: the contract-call generator (2 accounts, 50 slots, 1 code chunk)
returns Merkle `2*3000 + 50*3000 + 1*24200 = 180200` and Verkle
`2*200 + 50*200 + 1*200 = 10600` bytes. -/
theorem c4_contract_call_sizes :
    scenario_contract_call_with_code = some (WitnessComparison.new
      "Scenario 3: Contract Call with Code Access"
      (MERKLE_ACCOUNT_WITNESS * 2 + MERKLE_STORAGE_WITNESS * 50 + MERKLE_CODE_CHUNK * 1)
      (VERKLE_ACCOUNT_WITNESS * 2 + VERKLE_STORAGE_WITNESS * 50 + VERKLE_CODE_CHUNK * 1)) ∧
    MERKLE_ACCOUNT_WITNESS * 2 + MERKLE_STORAGE_WITNESS * 50 + MERKLE_CODE_CHUNK * 1 = 180200 ∧
    VERKLE_ACCOUNT_WITNESS * 2 + VERKLE_STORAGE_WITNESS * 50 + VERKLE_CODE_CHUNK * 1 = 10600 :=
  ⟨rfl, by decide, by decide⟩

/-- C5, counterexample: at `num_slots = 2 ^ 62` the Merkle multiplication
overflows `usize`, so the generator aborts (debug-profile panic, modelled as
`none`) instead of returning an entity with `merkle_size = 3000 * 2 ^ 62` —
the claim's universal statement fails at this input. -/
theorem c5_storage_access_overflow_counterexample :
    scenario_storage_access (2 ^ 62) = none ∧
    USIZE_BOUND ≤ MERKLE_STORAGE_WITNESS * 2 ^ 62 :=
  ⟨rfl, by decide⟩

/-- C5, amended: for every `num_slots` whose Merkle product stays below the
`usize` bound, the storage generator returns an entity with
`merkle_size = MERKLE_STORAGE_WITNESS * num_slots` and
`verkle_size = VERKLE_STORAGE_WITNESS * num_slots`. -/
theorem c5_storage_access_sizes (n : Nat)
    (h : MERKLE_STORAGE_WITNESS * n < USIZE_BOUND) :
    scenario_storage_access n = some (WitnessComparison.new
      s!"Scenario 2: Smart Contract Interaction ({n} storage slots)"
      (MERKLE_STORAGE_WITNESS * n) (VERKLE_STORAGE_WITNESS * n)) :=
  scenario_storage_access_eq n h

/-- C5, witness: at the reference call `num_slots = 100` the sizes are
300 000 and 20 000 bytes. -/
theorem c5_storage_access_sizes_witness :
    MERKLE_STORAGE_WITNESS * 100 < USIZE_BOUND ∧
    scenario_storage_access 100 = some (WitnessComparison.new
      "Scenario 2: Smart Contract Interaction (100 storage slots)" 300000 20000) :=
  ⟨by decide, (c5_storage_access_sizes 100 (by decide)).trans rfl⟩

/-- C6: the single-account generator returns Merkle 3000 and Verkle 200
bytes, and its improvement factor is exactly 15 (the IEEE double quotient
`3000.0 / 200.0` is exact, so the rational model coincides with the source). -/
theorem c6_single_account_sizes :
    scenario_single_account.merkle_size = 3000 ∧
    scenario_single_account.verkle_size = 200 ∧
    scenario_single_account.improvement_factor = 15 := by
  refine ⟨rfl, rfl, ?_⟩
  norm_num [WitnessComparison.improvement_factor, scenario_single_account,
    WitnessComparison.new, MERKLE_ACCOUNT_WITNESS, VERKLE_ACCOUNT_WITNESS]

/-- C7: every entity any of the four generators produces — for the storage
generator, at every slot count — has `verkle_size ≤ merkle_size`. -/
theorem c7_verkle_never_larger :
    scenario_single_account.verkle_size ≤ scenario_single_account.merkle_size ∧
    (∀ (n : Nat) (c : WitnessComparison),
      scenario_storage_access n = some c → c.verkle_size ≤ c.merkle_size) ∧
    (∀ c, scenario_contract_call_with_code = some c → c.verkle_size ≤ c.merkle_size) ∧
    (∀ c, scenario_full_block = some c → c.verkle_size ≤ c.merkle_size) := by
  refine ⟨by decide, ?_, ?_, ?_⟩
  · intro n c h
    rcases Nat.lt_or_ge (MERKLE_STORAGE_WITNESS * n) USIZE_BOUND with hm | hm
    · rw [some_result_unique (scenario_storage_access_eq n hm) h]
      exact Nat.mul_le_mul_right n (by decide)
    · rw [scenario_storage_access_overflow n hm] at h
      cases h
  · intro c h
    rw [some_result_unique rfl h]
    decide
  · intro c h
    rw [some_result_unique rfl h]
    decide

/-- C7, witness: instantiated at the storage scenario with 100 slots,
whose entity has 20 000 ≤ 300 000. -/
theorem c7_verkle_never_larger_witness :
    (WitnessComparison.new "Scenario 2: Smart Contract Interaction (100 storage slots)"
      300000 20000).verkle_size ≤
    (WitnessComparison.new "Scenario 2: Smart Contract Interaction (100 storage slots)"
      300000 20000).merkle_size :=
  c7_verkle_never_larger.2.1 100 _ rfl

/-- C8: both fits-in-slot checks are monotone in the size — if one entity's
size for a scheme is below another's and the larger fits, the smaller fits. -/
theorem c8_fits_in_slot_monotonic (a b : WitnessComparison) :
    (a.merkle_size ≤ b.merkle_size → b.merkle_fits_in_slot = true →
      a.merkle_fits_in_slot = true) ∧
    (a.verkle_size ≤ b.verkle_size → b.verkle_fits_in_slot = true →
      a.verkle_fits_in_slot = true) := by
  constructor <;> intro hle hb <;>
    simp only [WitnessComparison.merkle_fits_in_slot,
      WitnessComparison.verkle_fits_in_slot, decide_eq_true_eq] at hb ⊢ <;>
    exact le_trans hle hb

/-- C8, witness: a 100-byte entity fits because a budget-sized 15 000 000-byte
entity fits. -/
theorem c8_fits_in_slot_monotonic_witness :
    (WitnessComparison.new "small" 100 100).merkle_fits_in_slot = true :=
  (c8_fits_in_slot_monotonic (WitnessComparison.new "small" 100 100)
    (WitnessComparison.new "large" 15000000 200)).1 (by decide) (by decide)

/-- C9: each generator is deterministic — two results of the same generator
at the same parameter agree field by field.  The non-mutation half of the
claim holds structurally: the cost table is a set of Rust `const` items and
the generators take no mutable state, so the embedding is a family of pure
functions of their parameters alone. -/
theorem c9_generators_deterministic :
    (∀ c1 c2 : WitnessComparison,
      c1 = scenario_single_account → c2 = scenario_single_account →
      c1.scenario = c2.scenario ∧ c1.merkle_size = c2.merkle_size ∧
        c1.verkle_size = c2.verkle_size) ∧
    (∀ (n : Nat) (c1 c2 : WitnessComparison),
      scenario_storage_access n = some c1 → scenario_storage_access n = some c2 →
      c1.scenario = c2.scenario ∧ c1.merkle_size = c2.merkle_size ∧
        c1.verkle_size = c2.verkle_size) ∧
    (∀ c1 c2 : WitnessComparison,
      scenario_contract_call_with_code = some c1 →
      scenario_contract_call_with_code = some c2 →
      c1.scenario = c2.scenario ∧ c1.merkle_size = c2.merkle_size ∧
        c1.verkle_size = c2.verkle_size) ∧
    (∀ c1 c2 : WitnessComparison,
      scenario_full_block = some c1 → scenario_full_block = some c2 →
      c1.scenario = c2.scenario ∧ c1.merkle_size = c2.merkle_size ∧
        c1.verkle_size = c2.verkle_size) := by
  refine ⟨?_, ?_, ?_, ?_⟩
  · intro c1 c2 h1 h2
    rw [h1, h2]
    exact ⟨rfl, rfl, rfl⟩
  · intro n c1 c2 h1 h2
    rw [some_result_unique h1 h2]
    exact ⟨rfl, rfl, rfl⟩
  · intro c1 c2 h1 h2
    rw [some_result_unique h1 h2]
    exact ⟨rfl, rfl, rfl⟩
  · intro c1 c2 h1 h2
    rw [some_result_unique h1 h2]
    exact ⟨rfl, rfl, rfl⟩

/-- C9, witness: instantiated at the storage generator with 100 slots. -/
theorem c9_generators_deterministic_witness :
    (WitnessComparison.new "Scenario 2: Smart Contract Interaction (100 storage slots)"
      300000 20000).merkle_size =
    (WitnessComparison.new "Scenario 2: Smart Contract Interaction (100 storage slots)"
      300000 20000).merkle_size :=
  (c9_generators_deterministic.2.1 100 _ _ rfl rfl).2.1

/-- C10: the storage generator accepts `num_slots = 0` and returns, with no
error, the entity with both sizes zero — the `verkle_size = 0` state the spec
tells callers to avoid is reachable through the public generator interface,
and `improvement_factor` on it is the division of zero by zero. -/
theorem c10_zero_slots_reachable :
    scenario_storage_access 0 = some (WitnessComparison.new
      "Scenario 2: Smart Contract Interaction (0 storage slots)" 0 0) ∧
    (WitnessComparison.new
      "Scenario 2: Smart Contract Interaction (0 storage slots)" 0 0).merkle_size = 0 ∧
    (WitnessComparison.new
      "Scenario 2: Smart Contract Interaction (0 storage slots)" 0 0).verkle_size = 0 :=
  ⟨rfl, rfl, rfl⟩

end VerkleWitness
